import Mathlib

/-!
Verification of the CheckaJob assessment core, embedded from
`src/app/api/assess/route.ts`: the static job catalog `KB`, the keyword
classifier `inferJob`, the scorer `assessFromKB`, and the POST route's
normalization / provider-fallback structure.

JavaScript arithmetic on the only non-integer value that can arise (NaN,
produced when an unrecognized skill-level string makes the skill lookup
return `undefined`) is modelled with `Option Int`: `none` stands for NaN,
and the comparisons `undefined < 3` and `NaN > 60`, both false in JS, are
modelled accordingly.
-/

namespace CheckaJob

/-- Substring containment over character lists: `charsContain pat l` is true
iff `pat` occurs contiguously in `l`.  This models an unanchored JS regex
alternative consisting of a plain literal. -/
def charsContain (pat : List Char) : List Char → Bool
  | [] => pat.isEmpty
  | c :: rest => pat.isPrefixOf (c :: rest) || charsContain pat rest

/-- `containsSub t pat` : the string `pat` occurs as a substring of `t`. -/
def containsSub (t pat : String) : Bool :=
  charsContain pat.toList t.toList

/-- The character class `\s` of JavaScript regular expressions
(whitespace, including the Unicode space separators, NBSP, BOM). -/
def isJsWhitespace (c : Char) : Bool :=
  c.toNat = 0x20 || c.toNat = 0x09 || c.toNat = 0x0a || c.toNat = 0x0b ||
  c.toNat = 0x0c || c.toNat = 0x0d || c.toNat = 0xa0 || c.toNat = 0x1680 ||
  (0x2000 ≤ c.toNat && c.toNat ≤ 0x200a) || c.toNat = 0x2028 ||
  c.toNat = 0x2029 || c.toNat = 0x202f || c.toNat = 0x205f ||
  c.toNat = 0x3000 || c.toNat = 0xfeff

/-- Does the JS regex `o\s?ring` match at the head of the list: an `o`,
optionally one whitespace character, then `ring`. -/
def osRingAt : List Char → Bool
  | 'o' :: rest =>
    "ring".toList.isPrefixOf rest ||
    (match rest with
     | c :: rest2 => isJsWhitespace c && "ring".toList.isPrefixOf rest2
     | [] => false)
  | _ => false

/-- Does the JS regex `o\s?ring` match anywhere in the list. -/
def containsOsRing : List Char → Bool
  | [] => false
  | c :: rest => osRingAt (c :: rest) || containsOsRing rest

/-- The four keys of the knowledge base `KB`, in declaration order. -/
inductive JobKey where
  | hang_shelf
  | replace_tap_washer
  | paint_wall
  | fit_light_fixture
deriving DecidableEq, Repr

/-- The risk profile of a KB entry (`risk` field in the source). -/
structure Risk where
  electrical : Bool
  plumbing : Bool
  structural : Bool
  workingAtHeight : Bool
deriving DecidableEq, Repr

/-- One knowledge-base entry (the shape of the values of `KB`). -/
structure JobDefinition where
  name : String
  baseDifficulty : Int
  risk : Risk
  steps : List String
  tools : List String
  materials : List String
  safety : List String
deriving DecidableEq, Repr

/-- The knowledge base `KB` of the source, verbatim. -/
def KB : JobKey → JobDefinition
  | .hang_shelf =>
    { name := "Hang a Wall Shelf"
      baseDifficulty := 4
      risk := { electrical := false, plumbing := false, structural := false, workingAtHeight := false }
      steps :=
        [ "Locate studs or use appropriate wall anchors for your wall type.",
          "Measure and mark level bracket positions.",
          "Pre‑drill pilot holes.",
          "Fix brackets securely.",
          "Place shelf and secure per instructions.",
          "Load gradually and check for level." ]
      tools := ["Drill/driver", "Level", "Tape measure", "Stud finder (or tapping method)", "Screwdriver"]
      materials := ["Wall plugs/anchors", "Screws", "Shelf + brackets"]
      safety := ["Wear eye protection when drilling.", "Use anchors that match wall type and load."] }
  | .replace_tap_washer =>
    { name := "Replace a Tap Washer"
      baseDifficulty := 5
      risk := { electrical := false, plumbing := true, structural := false, workingAtHeight := false }
      steps :=
        [ "Isolate water supply (shut‑off valve).",
          "Open tap to relieve pressure.",
          "Disassemble tap handle and bonnet.",
          "Replace washer/O‑ring with matching size.",
          "Reassemble and restore water.",
          "Check for leaks." ]
      tools := ["Adjustable spanner", "Screwdrivers", "Plumber’s grease", "Allen keys"]
      materials := ["Correct size washer/O‑ring"]
      safety := ["Double‑check isolation valves.", "Protect chrome surfaces to avoid scratching."] }
  | .paint_wall =>
    { name := "Paint an Interior Wall"
      baseDifficulty := 3
      risk := { electrical := false, plumbing := false, structural := false, workingAtHeight := false }
      steps :=
        [ "Fill holes and sand smooth; dust off.",
          "Mask edges and cover floors/furniture.",
          "Cut in edges with brush.",
          "Roll first coat top‑to‑bottom.",
          "Allow to dry; apply second coat.",
          "Remove tape before fully dry for clean lines." ]
      tools := ["Roller + tray", "Brush (2\")", "Filler + sanding block", "Dust sheet", "Masking tape"]
      materials := ["Emulsion paint", "Filler"]
      safety := ["Ventilate the room.", "Use a stable step if needed; don’t overreach."] }
  | .fit_light_fixture =>
    { name := "Fit a New Ceiling Light Fixture"
      baseDifficulty := 7
      risk := { electrical := true, plumbing := false, structural := false, workingAtHeight := true }
      steps :=
        [ "Isolate circuit at consumer unit and verify dead.",
          "Note existing wiring configuration.",
          "Connect live/neutral/earth per manufacturer and local regs.",
          "Mount fixture securely.",
          "Restore power and test." ]
      tools := ["Voltage tester", "Screwdrivers", "Wire strippers", "Step ladder"]
      materials := ["Connector blocks/Wago", "Light fixture", "Fixings"]
      safety :=
        [ "If unsure about wiring identification or regs, use a qualified electrician.",
          "Always prove dead before touching conductors." ] }

/-- The normalized request input (`AssessmentInput` in the source).
`skillLevel` is kept as the raw string the route stored there, because the
route's normalization lets any non-empty string through. `tags` mirrors the
optional `tags?: string[]` field. -/
structure AssessmentInput where
  description : String
  skillLevel : String
  tags : Option (List String)
  postcode : Option String
deriving DecidableEq, Repr

/-- The assessment result (`AssessmentOutput` in the source, without the
LLM-only optional fields `durationMin`/`costLow`/`costHigh`, which the
knowledge-base path never sets). `score : Option Int` models a JS number
that is either an integer or NaN (`none`). -/
structure AssessmentOutput where
  decision : String
  score : Option Int
  rationale : List String
  steps : List String
  tools : List String
  materials : List String
  safety : List String
deriving DecidableEq, Repr

/-- The keyword pattern of `hang_shelf`: regex `(shelf|bracket|wall anchor)`. -/
def matchShelfPat (t : String) : Bool :=
  containsSub t "shelf" || containsSub t "bracket" || containsSub t "wall anchor"

/-- The keyword pattern of `replace_tap_washer`: regex `(tap|washer|o\s?ring)`. -/
def matchTapPat (t : String) : Bool :=
  containsSub t "tap" || containsSub t "washer" || containsOsRing t.toList

/-- The keyword pattern of `paint_wall`: regex `(paint|roller|brush)`. -/
def matchPaintPat (t : String) : Bool :=
  containsSub t "paint" || containsSub t "roller" || containsSub t "brush"

/-- The keyword pattern of `fit_light_fixture`: regex `(light|fixture|ceiling)`. -/
def matchLightPat (t : String) : Bool :=
  containsSub t "light" || containsSub t "fixture" || containsSub t "ceiling"

/-- Character-wise lowercasing, modelling `toLowerCase()`; on ASCII text —
which covers every catalog keyword and every concrete input considered
here — this agrees with the JS call. -/
def lowerStr (s : String) : String :=
  String.mk (s.toList.map Char.toLower)

/-- The text blob the classifier matches against: description, a space, the
space-joined tags, lowercased (line 108 of the route). -/
def lowerBlob (input : AssessmentInput) : String :=
  lowerStr (input.description ++ " " ++ String.intercalate " " (input.tags.getD []))

/-- The cascade of pattern tests of `inferJob` (lines 109-113), applied to
the already-lowercased blob. -/
def inferJobText (text : String) : Option JobKey :=
  if matchShelfPat text then some .hang_shelf
  else if matchTapPat text then some .replace_tap_washer
  else if matchPaintPat text then some .paint_wall
  else if matchLightPat text then some .fit_light_fixture
  else none

/-- `inferJob` of the source: keyword classification of the input. -/
def inferJob (input : AssessmentInput) : Option JobKey :=
  inferJobText (lowerBlob input)

/-- The skill-to-number lookup of line 123:
`{ novice: 1, intermediate: 2, advanced: 3 }[input.skillLevel]`.
A JS object lookup with a key that is none of the three yields `undefined`,
modelled by `none`. -/
def skillNumOf (skillLevel : String) : Option Int :=
  if skillLevel = "novice" then some 1
  else if skillLevel = "intermediate" then some 2
  else if skillLevel = "advanced" then some 3
  else none

/-- The JS comparison `skillNum < 3` at line 130: `undefined < 3` is false. -/
def jsLtThree : Option Int → Bool
  | some n => n < 3
  | none => false

/-- The body of `assessFromKB` after the `KB[jobKey]` lookup (lines 122-156),
as a function of the entry and of the raw skill-level string.  When the skill
lookup yields `undefined`, the discount `score - (skillNum - 1) * 10` is NaN,
`Math.max(1, NaN)` and `Math.min(100, NaN)` are NaN, and `NaN > 60` is false,
so the decision is the else branch `"DIY"`; the `none` arm of `scoreOpt`
models exactly this. -/
def assessJob (job : JobDefinition) (skillLevel : String) : AssessmentOutput :=
  let skillNum := skillNumOf skillLevel
  let score0 : Int := job.baseDifficulty * 10
  let score1 : Int := if job.risk.electrical then score0 + 20 else score0
  let rationale1 : List String :=
    if job.risk.electrical then
      ["Electrical work can be dangerous and may require certification."] ++
        (if jsLtThree skillNum then
          ["You indicated you are not advanced; electrical tasks are high risk."]
        else [])
    else []
  let score2 : Int := if job.risk.plumbing then score1 + 10 else score1
  let rationale2 : List String :=
    rationale1 ++
      (if job.risk.plumbing then
        ["Plumbing jobs risk leaks and water damage if done incorrectly."]
      else [])
  let score3 : Int := if job.risk.workingAtHeight then score2 + 10 else score2
  let rationale3 : List String :=
    rationale2 ++
      (if job.risk.workingAtHeight then
        ["Working at height increases the chance of falls."]
      else [])
  let scoreOpt : Option Int :=
    match skillNum with
    | some n => some (min 100 (max 1 (score3 - (n - 1) * 10)))
    | none => none
  let decision : String :=
    match scoreOpt with
    | some s => if s > 60 then "Get a Pro" else "DIY"
    | none => "DIY"
  let verdict : String :=
    if decision = "DIY" then "This task appears feasible for your skill level."
    else "This task may be too challenging or risky for you."
  { decision := decision
    score := scoreOpt
    rationale := verdict :: rationale3
    steps := job.steps
    tools := job.tools
    materials := job.materials
    safety := job.safety }

/-- `assessFromKB` of the source (line 120): look the job up in `KB` and
assess it; only `input.skillLevel` is read from the input. -/
def assessFromKB (input : AssessmentInput) (jobKey : JobKey) : AssessmentOutput :=
  assessJob (KB jobKey) input.skillLevel

/-- The three legal values of the `skillLevel` field of `AssessmentInput`
as the TypeScript union type declares them. -/
inductive SkillLevel where
  | novice
  | intermediate
  | advanced
deriving DecidableEq, Repr

/-- The string of a legal skill level. -/
def SkillLevel.str : SkillLevel → String
  | .novice => "novice"
  | .intermediate => "intermediate"
  | .advanced => "advanced"

/-- The ordinal of a legal skill level (novice 1, intermediate 2, advanced 3). -/
def SkillLevel.ord : SkillLevel → Int
  | .novice => 1
  | .intermediate => 2
  | .advanced => 3

/-- The fixed conservative response of the unknown-job branch of POST
(lines 207-223), verbatim. -/
def unknownJobOutput : AssessmentOutput :=
  { decision := "Get a Pro"
    score := some 75
    rationale :=
      [ "Unable to match your description to our known jobs.",
        "For ambiguous or unknown tasks, we err on the side of caution." ]
    steps := []
    tools := []
    materials := []
    safety := ["Please consult a professional or provide more details to get specific advice."] }

/-- The fallback branch of POST (lines 200-223): classify, and either score
the matched job or return the fixed unknown-job response. -/
def fallbackAssess (input : AssessmentInput) : AssessmentOutput :=
  match inferJob input with
  | some jobKey => assessFromKB input jobKey
  | none => unknownJobOutput

/-- The HTTP status of the fallback branch: `NextResponse.json(assessment)`
defaults to 200 and the unknown-job response passes `status: 200` explicitly,
so every fallback response is a success. -/
def fallbackStatus (_ : AssessmentInput) : Nat := 200

/-- The raw request body fields as the route reads them (lines 162-168).
`none` models an absent field; a non-string JSON value for `description` or
`skillLevel`, and a non-array `tags`, are outside this model except that
`tags := none` covers every non-array. -/
structure RawBody where
  description : Option String
  skillLevel : Option String
  tags : Option (List String)
  postcode : Option String
deriving DecidableEq, Repr

/-- The JS idiom `value || default` on an optional string: the default is
used when the field is absent or the empty string (both falsy); every other
string, valid or not, is kept. -/
def jsOrDefault (o : Option String) (dflt : String) : String :=
  match o with
  | some s => if s = "" then dflt else s
  | none => dflt

/-- The input normalization of POST (lines 163-168). -/
def normalizeInput (body : RawBody) : AssessmentInput :=
  { description := jsOrDefault body.description ""
    skillLevel := jsOrDefault body.skillLevel "novice"
    tags := some (body.tags.getD [])
    postcode := body.postcode }

/-- JSON values, for the provider branch: `JSON.parse(content)` yields one
of these when it does not throw.  Numeric precision is irrelevant to the
claims, so numbers are `Int`. -/
inductive Json where
  | null
  | bool (b : Bool)
  | num (n : Int)
  | str (s : String)
  | arr (xs : List Json)
  | obj (fields : List (String × Json))

/-- Is a JSON value an array of strings. -/
def isStrArr : Json → Bool
  | .arr xs => xs.all fun x => match x with | .str _ => true | _ => false
  | _ => false

/-- Modelled from the spec: a JSON value conforms to the AssessmentOutput
shape iff it is an object whose `decision` is the string "DIY" or
"Get a Pro", whose `score` is a number, and whose `rationale`, `steps`,
`tools`, `materials` and `safety` are arrays of strings.  The route itself
has no such check, which is what claim C7 is about. -/
def specConformsToAssessmentShape (j : Json) : Bool :=
  match j with
  | .obj fields =>
    (match fields.lookup "decision" with
     | some (.str d) => d = "DIY" || d = "Get a Pro"
     | _ => false) &&
    (match fields.lookup "score" with
     | some (.num _) => true
     | _ => false) &&
    (["rationale", "steps", "tools", "materials", "safety"].all fun key =>
      match fields.lookup key with
      | some v => isStrArr v
      | _ => false)
  | _ => false

/-- The outcome of the provider attempt (lines 170-199) as the route
observes it: `failure` covers an absent API key, a thrown call, falsy
content, and a `JSON.parse` exception; `parsed j` is a successful
`JSON.parse(content)` with value `j`. -/
inductive ProviderOutcome where
  | failure
  | parsed (j : Json)

/-- What POST returns: the parsed provider JSON verbatim (line 191), or the
knowledge-base fallback output. -/
inductive RouteResponse where
  | providerJson (j : Json)
  | kb (out : AssessmentOutput)

/-- POST (lines 161-224) as a function of the provider outcome and the raw
body: a successful `JSON.parse` of the provider content is returned as the
response with no further validation; every failure falls through to the
knowledge-base branch. -/
def POSTmodel (p : ProviderOutcome) (body : RawBody) : RouteResponse :=
  match p with
  | .parsed j => .providerJson j
  | .failure => .kb (fallbackAssess (normalizeInput body))

/-- The four array-valued fields shared by a KB entry and an output. -/
inductive ListField where
  | steps
  | tools
  | materials
  | safety
deriving DecidableEq, Repr

/-- The array-valued field of a KB entry named by a `ListField`. -/
def JobDefinition.listField (job : JobDefinition) : ListField → List String
  | .steps => job.steps
  | .tools => job.tools
  | .materials => job.materials
  | .safety => job.safety

/-- A reference to a JS array object reachable in the scorer's return
statement: either one of the array objects stored inside a `KB` entry
(created once at module load), or a fresh array holding the given
elements (what a copy such as `[...job.steps]` would create). -/
inductive ArrayRef where
  | kbArr (k : JobKey) (f : ListField)
  | freshArr (l : List String)
deriving DecidableEq, Repr

/-- The elements of the array an `ArrayRef` points to. -/
def ArrayRef.deref : ArrayRef → List String
  | .kbArr k f => (KB k).listField f
  | .freshArr l => l

/-- Reference-level view of the scorer's return statement (lines 148-156):
`steps: job.steps` (and likewise `tools`, `materials`, `safety`) stores in
the output the very array object held by the KB entry — a reference copy,
not a fresh array. -/
def assessFromKBListRefs (jobKey : JobKey) (f : ListField) : ArrayRef :=
  ArrayRef.kbArr jobKey f

/-- Spec-side restatement of the classifier: the catalog entries in
declaration order, each with its keyword pattern. -/
def catalogPatterns : List (JobKey × (String → Bool)) :=
  [ (.hang_shelf, matchShelfPat),
    (.replace_tap_washer, matchTapPat),
    (.paint_wall, matchPaintPat),
    (.fit_light_fixture, matchLightPat) ]

/-- Spec-side restatement of the classifier's result: the key of the first
catalog entry in declaration order whose pattern matches the text. -/
def firstMatchKey (text : String) : Option JobKey :=
  (catalogPatterns.find? fun p => p.2 text).map fun p => p.1

/-- C1: for every catalog job and every valid skill level (and whatever
description, tags and postcode accompany them), the scorer's score is
`baseDifficulty * 10`, plus 20 if the job's electrical flag is set, plus 10
if plumbing is set, plus 10 if workingAtHeight is set, minus
`(skillNum - 1) * 10` with novice = 1, intermediate = 2, advanced = 3, the
result then clamped to the closed interval [1, 100]. -/
theorem scorer_score_formula (k : JobKey) (sl : SkillLevel)
    (d : String) (tags : Option (List String)) (pc : Option String) :
    (assessFromKB ⟨d, sl.str, tags, pc⟩ k).score =
      some (min 100 (max 1 ((KB k).baseDifficulty * 10
        + (if (KB k).risk.electrical then 20 else 0)
        + (if (KB k).risk.plumbing then 10 else 0)
        + (if (KB k).risk.workingAtHeight then 10 else 0)
        - (sl.ord - 1) * 10))) := by
  cases k <;> cases sl <;> rfl

/-- C2: for every catalog job and every valid skill level, the decision is
"Get a Pro" iff the score exceeds 60 and "DIY" iff it is at most 60, and
the first rationale sentence is the feasibility sentence exactly when the
decision is "DIY" and the caution sentence otherwise. -/
theorem scorer_decision_rationale (k : JobKey) (sl : SkillLevel)
    (d : String) (tags : Option (List String)) (pc : Option String) :
    (assessFromKB ⟨d, sl.str, tags, pc⟩ k).score =
        some ((assessFromKB ⟨d, sl.str, tags, pc⟩ k).score.getD 0) ∧
      ((assessFromKB ⟨d, sl.str, tags, pc⟩ k).decision = "Get a Pro" ↔
        (assessFromKB ⟨d, sl.str, tags, pc⟩ k).score.getD 0 > 60) ∧
      ((assessFromKB ⟨d, sl.str, tags, pc⟩ k).decision = "DIY" ↔
        (assessFromKB ⟨d, sl.str, tags, pc⟩ k).score.getD 0 ≤ 60) ∧
      (assessFromKB ⟨d, sl.str, tags, pc⟩ k).rationale.head? =
        some (if (assessFromKB ⟨d, sl.str, tags, pc⟩ k).decision = "DIY"
          then "This task appears feasible for your skill level."
          else "This task may be too challenging or risky for you.") := by
  cases k <;> cases sl <;> simp only [assessFromKB] <;>
    exact ⟨by decide, by decide, by decide, by rfl⟩

/-- C9: the scorer never reads the structural risk flag — two KB entries
identical except for that flag produce identical outputs at every skill
level. -/
theorem structural_flag_never_read (job : JobDefinition) (b1 b2 : Bool)
    (sl : SkillLevel) :
    assessJob { job with risk := { job.risk with structural := b1 } } sl.str =
      assessJob { job with risk := { job.risk with structural := b2 } } sl.str := rfl

/-- C10: the keyword patterns match plain substrings with no word-boundary
anchoring and the tap pattern is tested before the paint pattern, so the
description "use masking tape before you paint the wall" — where "tap"
occurs only inside the word "tape" — classifies as `replace_tap_washer`
even though the paint pattern matches the text too. -/
theorem tape_substring_matches_tap :
    inferJob ⟨"use masking tape before you paint the wall", "novice", some [], none⟩ =
      some JobKey.replace_tap_washer ∧
    matchPaintPat (lowerBlob ⟨"use masking tape before you paint the wall", "novice", some [], none⟩) = true ∧
    inferJob ⟨"use masking tape before you paint the wall", "novice", some [], none⟩ ≠
      some JobKey.paint_wall := by
  refine ⟨by decide, by decide, ?_⟩
  decide

/-- Does an optional integer score hold an integer within the closed
interval [lo, hi] (a NaN score, `none`, does not). -/
def scoreWithin (o : Option Int) (lo hi : Int) : Bool :=
  match o with
  | some s => decide (lo ≤ s) && decide (s ≤ hi)
  | none => false

/-- C3: for every job definition whose base difficulty is an integer in
[1, 10], every combination of the four risk flags (the flags of `job` are
arbitrary), and every valid skill level, the scorer's score is an integer
in the closed interval [1, 100]. -/
theorem scorer_score_in_bounds (job : JobDefinition) (sl : SkillLevel)
    (h1 : 1 ≤ job.baseDifficulty) (h2 : job.baseDifficulty ≤ 10) :
    scoreWithin (assessJob job sl.str).score 1 100 = true := by
  have key : ∀ x : Int, scoreWithin (some (min 100 (max 1 x))) 1 100 = true := by
    intro x
    simp only [scoreWithin, Bool.and_eq_true, decide_eq_true_eq]
    exact ⟨le_min (by norm_num) (le_max_left 1 x), min_le_left 100 (max 1 x)⟩
  cases sl <;> exact key _

/-- Witness for C3: the shelf job at novice skill satisfies the hypotheses
and its score lies in [1, 100]. -/
theorem scorer_score_in_bounds_witness :
    1 ≤ (KB JobKey.hang_shelf).baseDifficulty ∧
      (KB JobKey.hang_shelf).baseDifficulty ≤ 10 ∧
      scoreWithin (assessJob (KB JobKey.hang_shelf) SkillLevel.novice.str).score 1 100 = true :=
  ⟨by decide, by decide,
    scorer_score_in_bounds (KB JobKey.hang_shelf) SkillLevel.novice (by decide) (by decide)⟩

/-- C4: the route substitutes the novice default only for a missing or
empty skillLevel; an unrecognized non-empty string such as "expert" is kept
as is, the scorer's skill lookup then yields undefined, the score becomes
NaN (modelled `none`) and the decision "DIY" — diverging from the output
the same body would get with skillLevel "novice" (score 100, "Get a Pro"
for a ceiling-light description). -/
theorem invalid_skill_level_divergence :
    normalizeInput ⟨some "fit a ceiling light", some "expert", none, none⟩ =
        ⟨"fit a ceiling light", "expert", some [], none⟩ ∧
      (fallbackAssess ⟨"fit a ceiling light", "expert", some [], none⟩).score = none ∧
      (fallbackAssess ⟨"fit a ceiling light", "expert", some [], none⟩).decision = "DIY" ∧
      normalizeInput ⟨some "fit a ceiling light", none, none, none⟩ =
        ⟨"fit a ceiling light", "novice", some [], none⟩ ∧
      (fallbackAssess ⟨"fit a ceiling light", "novice", some [], none⟩).score = some 100 ∧
      (fallbackAssess ⟨"fit a ceiling light", "novice", some [], none⟩).decision = "Get a Pro" :=
  ⟨rfl, rfl, rfl, rfl, rfl, rfl⟩

/-- C5: whenever the lowercased description-plus-tags blob matches none of
the four keyword patterns, the fallback path returns, with HTTP status 200,
exactly the fixed conservative unknown-job response. -/
theorem unknown_job_conservative_default (input : AssessmentInput)
    (h1 : matchShelfPat (lowerBlob input) = false)
    (h2 : matchTapPat (lowerBlob input) = false)
    (h3 : matchPaintPat (lowerBlob input) = false)
    (h4 : matchLightPat (lowerBlob input) = false) :
    fallbackStatus input = 200 ∧
      fallbackAssess input =
        { decision := "Get a Pro"
          score := some 75
          rationale :=
            [ "Unable to match your description to our known jobs.",
              "For ambiguous or unknown tasks, we err on the side of caution." ]
          steps := []
          tools := []
          materials := []
          safety := ["Please consult a professional or provide more details to get specific advice."] } := by
  refine ⟨rfl, ?_⟩
  unfold fallbackAssess inferJob inferJobText
  rw [h1, h2, h3, h4]
  rfl

/-- Witness for C5: the description "quantum entanglement repair" matches
no pattern and yields the fixed unknown-job response. -/
theorem unknown_job_conservative_default_witness :
    fallbackStatus ⟨"quantum entanglement repair", "novice", some [], none⟩ = 200 ∧
      fallbackAssess ⟨"quantum entanglement repair", "novice", some [], none⟩ =
        { decision := "Get a Pro"
          score := some 75
          rationale :=
            [ "Unable to match your description to our known jobs.",
              "For ambiguous or unknown tasks, we err on the side of caution." ]
          steps := []
          tools := []
          materials := []
          safety := ["Please consult a professional or provide more details to get specific advice."] } :=
  unknown_job_conservative_default ⟨"quantum entanglement repair", "novice", some [], none⟩
    (by decide) (by decide) (by decide) (by decide)

/-- C6: the classifier returns the key of the first catalog entry in
declaration order (hang_shelf, replace_tap_washer, paint_wall,
fit_light_fixture) whose keyword pattern matches the lowercased
description-plus-tags blob; in particular any input matching both the shelf
and the tap patterns classifies as hang_shelf. -/
theorem classifier_first_match (input : AssessmentInput) :
    inferJob input = firstMatchKey (lowerBlob input) ∧
      (matchShelfPat (lowerBlob input) = true → matchTapPat (lowerBlob input) = true →
        inferJob input = some JobKey.hang_shelf) := by
  constructor
  · unfold inferJob inferJobText firstMatchKey catalogPatterns
    cases h1 : matchShelfPat (lowerBlob input) <;>
      cases h2 : matchTapPat (lowerBlob input) <;>
        cases h3 : matchPaintPat (lowerBlob input) <;>
          cases h4 : matchLightPat (lowerBlob input) <;>
            simp [List.find?, h1, h2, h3, h4]
  · intro h1 _
    unfold inferJob inferJobText
    rw [h1]
    rfl

/-- Witness for C6: a description matching both the shelf and the tap
patterns classifies as hang_shelf. -/
theorem classifier_first_match_witness :
    inferJob ⟨"fix a shelf and a tap", "novice", some [], none⟩ = some JobKey.hang_shelf :=
  (classifier_first_match ⟨"fix a shelf and a tap", "novice", some [], none⟩).2
    (by decide) (by decide)

/-- C7 counterexample: the JSON value `null` is valid JSON that does not
conform to the AssessmentOutput shape, yet when `JSON.parse` yields it the
route returns it verbatim instead of abandoning the provider result for the
fallback. -/
theorem provider_nonconforming_json_returned :
    specConformsToAssessmentShape Json.null = false ∧
      POSTmodel (ProviderOutcome.parsed Json.null) ⟨some "hang a shelf", some "novice", none, none⟩ =
        RouteResponse.providerJson Json.null ∧
      POSTmodel (ProviderOutcome.parsed Json.null) ⟨some "hang a shelf", some "novice", none, none⟩ ≠
        RouteResponse.kb (fallbackAssess (normalizeInput ⟨some "hang a shelf", some "novice", none, none⟩)) :=
  ⟨rfl, rfl, fun h => RouteResponse.noConfusion h⟩

/-- C7 amended: the route abandons the provider path exactly when the call
is unconfigured or errors, the content is absent, or `JSON.parse` throws;
whenever `JSON.parse` succeeds, the parsed value — of any shape — is
returned verbatim with no validation against the AssessmentOutput shape. -/
theorem provider_parse_passthrough (j : Json) (body : RawBody) :
    POSTmodel (ProviderOutcome.parsed j) body = RouteResponse.providerJson j ∧
      POSTmodel ProviderOutcome.failure body =
        RouteResponse.kb (fallbackAssess (normalizeInput body)) :=
  ⟨rfl, rfl⟩

/-- C8 counterexample: at the hang_shelf job the output's steps field holds
the catalog's own array object (the reference stored in `KB`), not a fresh
array with the same elements — the output sequences are aliases of the
catalog's, not copies. -/
theorem output_steps_alias_of_catalog :
    assessFromKBListRefs JobKey.hang_shelf ListField.steps =
        ArrayRef.kbArr JobKey.hang_shelf ListField.steps ∧
      assessFromKBListRefs JobKey.hang_shelf ListField.steps ≠
        ArrayRef.freshArr ((KB JobKey.hang_shelf).steps) :=
  ⟨rfl, fun h => ArrayRef.noConfusion h⟩

/-- C8 amended: for every input and matched job, the output's steps, tools,
materials and safety sequences are element-for-element equal (order
preserved) to those of the catalog entry; at the reference level each of
those fields is the catalog's own array, whose dereference agrees with the
entry's field. -/
theorem catalog_lists_round_trip (input : AssessmentInput) (k : JobKey) :
    (assessFromKB input k).steps = (KB k).steps ∧
      (assessFromKB input k).tools = (KB k).tools ∧
      (assessFromKB input k).materials = (KB k).materials ∧
      (assessFromKB input k).safety = (KB k).safety ∧
      (∀ f : ListField, (assessFromKBListRefs k f).deref = (KB k).listField f) :=
  ⟨rfl, rfl, rfl, rfl, fun _ => rfl⟩

end CheckaJob
